import Mathlib

/-!
Verification of `dev/create_google_dev_vm.py` (duobab/spinnaker).

The Python script is shallowly embedded: every operation with an external
effect (printing, running a subprocess, an HTTP request, writing a file)
is recorded as an `Action` in a trace, and the sources of external data
(environment variables, the filesystem, subprocess outputs, the metadata
endpoint) are fields of an `Env` record.  Python exceptions become
`Except` errors, `sys.exit` becomes a `Halt.exited` result, and the
mutable `options` namespace becomes explicit state passing of an
`Options` record.
-/

set_option autoImplicit false

namespace Spinnaker

/-! ### Python string primitives -/

/-- Whitespace characters stripped by Python `str.strip()`. -/
def pyIsSpace (c : Char) : Bool :=
  c = ' ' || c = '\t' || c = '\n' || c = '\r' || c = '\x0b' || c = '\x0c'

/-- Python `str.strip()`: remove leading and trailing whitespace. -/
def pyStrip (s : String) : String :=
  String.mk (((s.toList.dropWhile pyIsSpace).reverse.dropWhile pyIsSpace).reverse)

/-- Index of the first occurrence of `pat` in `s`, if any. -/
def findIdx (pat : List Char) : List Char → Option Nat
  | [] => if pat.isPrefixOf ([] : List Char) then some 0 else none
  | c :: rest =>
    if pat.isPrefixOf (c :: rest) then some 0
    else Option.map (fun n => n + 1) (findIdx pat rest)

/-- Python `s.find(pat)`: first index of `pat` in `s`, or `-1` when absent. -/
def strFind (s pat : String) : Int :=
  match findIdx pat.toList s.toList with
  | some n => (n : Int)
  | none => -1

/-- `pat` occurs in `s` starting at index `i`. -/
def occursAt (pat s : List Char) (i : Nat) : Bool :=
  pat.isPrefixOf (s.drop i)

/-! ### The retry loop `try_until_ready` -/

/-- One observable event of the retry loop:
an invocation of the wrapped command, a printed message, or a sleep. -/
inductive REvent where
  | invoke (cmd : String)
  | msg (s : String)
  | sleep (secs : Nat)
  deriving DecidableEq, Repr

/-- The outcome of one `run_subprocess` invocation: exit code and captured
output. -/
structure Attempt where
  retcode : Int
  out : String
  deriving DecidableEq, Repr

/-- The messages printed by `try_until_ready` after a failed invocation
(the body of the `if stdout.find('refused') > 0` statement). -/
def failure_messages (out : String) : List String :=
  if strFind out "refused" > 0 then
    ["New instance does not seem ready yet...retry in 5s."]
  else
    [pyStrip out, "Retrying in 5s."]

/-- `try_until_ready(command)`: run the command; stop on exit code zero,
otherwise print the failure messages, sleep 5 seconds and retry.  The
list supplies the outcome of each successive invocation; `none` means the
supplied outcomes were exhausted before a success (the loop would still
be running). -/
def try_until_ready (command : String) : List Attempt → Option (List REvent)
  | [] => none
  | a :: rest =>
    if a.retcode = 0 then some [REvent.invoke command]
    else
      match try_until_ready command rest with
      | none => none
      | some tr =>
        some (REvent.invoke command ::
          ((failure_messages a.out).map REvent.msg ++ REvent.sleep 5 :: tr))

/-- Number of command invocations recorded in a retry trace. -/
def invokeCount (tr : List REvent) : Nat :=
  (tr.filter (fun e => match e with | REvent.invoke _ => true | _ => false)).length

/-- The trace with printed messages removed: only invocations and sleeps. -/
def retrySkeleton (tr : List REvent) : List REvent :=
  tr.filter (fun e => match e with | REvent.msg _ => false | _ => true)

/-- Number of leading failed attempts. -/
def failCount (attempts : List Attempt) : Nat :=
  (attempts.takeWhile (fun a => a.retcode != 0)).length

/-! ### The regular-expression search of `get_project` -/

/-- The characters of a line tail up to (excluding) the first newline;
`none` when no newline follows, in which case the pattern
`project = (.*)\n` cannot match at this position. -/
def takeToNewline : List Char → Option (List Char)
  | [] => none
  | c :: rest =>
    if c = '\n' then some []
    else Option.map (fun l => c :: l) (takeToNewline rest)

/-- Scan for the leftmost match of `pat` followed by a line rest and a
newline, returning the captured group. -/
def reSearchAux (pat : List Char) : List Char → Option (List Char)
  | [] => none
  | c :: rest =>
    if pat.isPrefixOf (c :: rest) then
      match takeToNewline ((c :: rest).drop pat.length) with
      | some g => some g
      | none => reSearchAux pat rest
    else reSearchAux pat rest

/-- Python `re.search('project = (.*)\n', stdout)`: the captured group of
the leftmost match, or `none` when the pattern does not match. -/
def reSearchProject (stdout : String) : Option String :=
  Option.map (fun l => String.mk l) (reSearchAux ("project = ".toList) stdout.toList)

/-! ### POSIX path functions -/

/-- Characters after the last slash (`os.path.basename` for POSIX). -/
def basenameAux : List Char → List Char → List Char
  | acc, [] => acc.reverse
  | acc, c :: rest => if c = '/' then basenameAux [] rest else basenameAux (c :: acc) rest

/-- `os.path.basename`. -/
def basename (p : String) : String :=
  String.mk (basenameAux [] p.toList)

/-- `os.path.join(a, b)` for POSIX paths. -/
def pathJoin (a b : String) : String :=
  if b.startsWith "/" then b
  else if a = "" || a.endsWith "/" then a ++ b
  else a ++ "/" ++ b

/-- Split a path on slashes. -/
def splitSlash : List Char → List (List Char) → List Char → List (List Char)
  | acc, comps, [] => (acc.reverse :: comps).reverse
  | acc, comps, c :: rest =>
    if c = '/' then splitSlash [] (acc.reverse :: comps) rest
    else splitSlash (c :: acc) comps rest

/-- The component loop of POSIX `os.path.normpath`. -/
def normParts (hasRoot : Bool) : List String → List String → List String
  | acc, [] => acc.reverse
  | acc, comp :: rest =>
    if comp = "" || comp = "." then normParts hasRoot acc rest
    else if comp != ".." || (!hasRoot && acc.isEmpty) ||
            (match acc with | c :: _ => c = ".." | [] => false) then
      normParts hasRoot (comp :: acc) rest
    else
      match acc with
      | [] => normParts hasRoot acc rest
      | _ :: accTail => normParts hasRoot accTail rest

/-- POSIX `os.path.normpath`. -/
def normpath (path : String) : String :=
  if path = "" then "." else
  let initialSlashes : Nat :=
    if path.startsWith "/" then
      if path.startsWith "//" && !path.startsWith "///" then 2 else 1
    else 0
  let comps := (splitSlash [] [] path.toList).map (fun l => String.mk l)
  let newComps := normParts (initialSlashes != 0) [] comps
  let joined := String.intercalate "/" newComps
  let result := String.mk (List.replicate initialSlashes '/') ++ joined
  if result = "" then "." else result

/-- POSIX `os.path.abspath` given the current working directory. -/
def abspath (cwd p : String) : String :=
  if p.startsWith "/" then normpath p else normpath (pathJoin cwd p)

/-! ### Errors, actions, options, environment -/

/-- The exception classes caught by `get_zone`
(`urllib`'s `HTTPError` and `URLError`). -/
inductive NetErr where
  | httpError (code : Nat)
  | urlError (reason : String)
  deriving DecidableEq, Repr

/-- Python exceptions this script can raise. -/
inductive PyErr where
  | keyError (key : String)
  | attributeError
  | calledProcessError (cmd : String)
  | argumentError (msg : String)
  deriving DecidableEq, Repr

/-- How a run of the script ends abnormally: `sys.exit(code)` or an
uncaught exception. -/
inductive Halt where
  | exited (code : Int)
  | raised (e : PyErr)
  deriving DecidableEq, Repr

/-- The observable external effects of the script. -/
inductive Action where
  | print (s : String)
  | stderr (s : String)
  | execRetry (cmd : String)
  | execCheck (cmd : String)
  | execRun (cmd : String)
  | httpGet (url : String)
  | writeFile (path : String) (content : String)
  deriving DecidableEq, Repr

/-- The parsed command-line options namespace.  `Option String` fields
model Python values that may be `None`. -/
structure Options where
  instName : String
  project : Option String
  zone : Option String
  disk_type : String
  disk_size : String
  machine_type : String
  copy_personal_files : Bool
  copy_home_spinnaker : Bool
  copy_git_credentials : Bool
  copy_gcloud_config : Bool
  aws_credentials : Option String
  address : Option String
  scopes : String
  deriving DecidableEq, Repr

/-- Python truthiness of an optional string: `None` and the empty string
are falsy. -/
def pyTruthy : Option String → Bool
  | none => false
  | some s => !s.isEmpty

/-- The fixed external world of one run: environment variables, the
filesystem, subprocess results, and the metadata endpoint response. -/
structure Env where
  envVars : String → Option String
  fileExists : String → Bool
  cwd : String
  runSub : String → Int × String
  checkSub : String → Except PyErr String
  metadataZone : Except NetErr String
  fileDir : String
  tempFile : String

/-- `os.environ[key]`: raises `KeyError` when the variable is unset. -/
def osEnviron (env : Env) (key : String) : Except PyErr String :=
  match env.envVars key with
  | some v => Except.ok v
  | none => Except.error (PyErr.keyError key)

def GOOGLE_METADATA_URL : String := "http://metadata.google.internal/computeMetadata/v1"

def GOOGLE_INSTANCE_METADATA_URL : String := GOOGLE_METADATA_URL ++ "/instance"

/-! ### Option resolution -/

/-- `get_project(options)`: the configured project, shelling out to
`gcloud config list` and caching the extracted value when the field is
falsy. -/
def get_project (env : Env) (o : Options) : List Action × Except PyErr (String × Options) :=
  if !pyTruthy o.project then
    match env.checkSub "gcloud config list" with
    | Except.error e => ([Action.execCheck "gcloud config list"], Except.error e)
    | Except.ok stdout =>
      match reSearchProject stdout with
      | none => ([Action.execCheck "gcloud config list"], Except.error PyErr.attributeError)
      | some p =>
        ([Action.execCheck "gcloud config list"], Except.ok (p, { o with project := some p }))
  else ([], Except.ok (o.project.getD "", o))

/-- `get_zone(options)`: the configured zone, falling back to the
metadata endpoint and, on an `HTTPError` or `URLError`, to the fixed
default zone; the result is cached. -/
def get_zone (env : Env) (o : Options) : List Action × (String × Options) :=
  if !pyTruthy o.zone then
    let acts := [Action.httpGet (GOOGLE_INSTANCE_METADATA_URL ++ "/zone")]
    match env.metadataZone with
    | Except.ok body =>
      let z := basename body
      (acts, (z, { o with zone := some z }))
    | Except.error _ =>
      (acts, ("us-central1-f", { o with zone := some "us-central1-f" }))
  else ([], (o.zone.getD "", o))

/-! ### The argument parser -/

/-- The `action` of an `add_argument` call. -/
inductive ArgAction where
  | store
  | storeTrue
  | storeFalse
  deriving DecidableEq, Repr

/-- The `default` of an `add_argument` call. -/
inductive DefaultVal where
  | noneV
  | strV (s : String)
  | boolV (b : Bool)
  deriving DecidableEq, Repr

/-- One `add_argument` registration. -/
structure ArgSpec where
  flag : String
  dest : String
  action : ArgAction
  dflt : DefaultVal
  help : String
  deriving DecidableEq, Repr

/-- `init_argument_specs(parser)`: the registrations, in source order.
The `--instance` default interpolates the already-looked-up `USER`
environment variable. -/
def init_argument_specs (user : String) : List ArgSpec :=
  [{ flag := "--instance", dest := "instance", action := ArgAction.store,
     dflt := DefaultVal.strV (user ++ "-spinnaker-dev"),
     help := "The name of the GCE instance to create." },
   { flag := "--project", dest := "project", action := ArgAction.store,
     dflt := DefaultVal.noneV,
     help := "The Google Project ID to create the new instance in." ++
       " If left empty, use the default project gcloud was configured with." },
   { flag := "--zone", dest := "zone", action := ArgAction.store,
     dflt := DefaultVal.noneV,
     help := "The Google Cloud Platform zone to create the new instance in." },
   { flag := "--disk_type", dest := "disk_type", action := ArgAction.store,
     dflt := DefaultVal.strV "pd-ssd",
     help := "The Google Cloud Platform disk type to use for the new instance." ++
       "  The default is pd-standard. For a list of other available options," ++
       " see \"gcloud compute disk-types list\"." },
   { flag := "--disk_size", dest := "disk_size", action := ArgAction.store,
     dflt := DefaultVal.strV "200GB",
     help := "Warnings appear if disk size < 200GB" },
   { flag := "--machine_type", dest := "machine_type", action := ArgAction.store,
     dflt := DefaultVal.strV "n1-standard-8", help := "" },
   { flag := "--copy_personal_files", dest := "copy_personal_files",
     action := ArgAction.storeTrue, dflt := DefaultVal.boolV true,
     help := "Copy personal configuration files (.gitconfig, etc.)" },
   { flag := "--no_personal_files", dest := "copy_personal_files",
     action := ArgAction.storeFalse, dflt := DefaultVal.boolV true,
     help := "Do not copy personal files." },
   { flag := "--copy_home_spinnaker", dest := "copy_home_spinnaker",
     action := ArgAction.storeTrue, dflt := DefaultVal.boolV false,
     help := "Copy ~/.spinnaker directory." },
   { flag := "--copy_git_credentials", dest := "copy_git_credentials",
     action := ArgAction.storeTrue, dflt := DefaultVal.boolV false,
     help := "Copy git credentials (.git-credentials)" },
   { flag := "--no_git_credentials", dest := "copy_git_credentials",
     action := ArgAction.storeFalse, dflt := DefaultVal.boolV true,
     help := "Do not copy git credentials" },
   { flag := "--copy_gcloud_config", dest := "copy_gcloud_config",
     action := ArgAction.storeTrue, dflt := DefaultVal.boolV false,
     help := "Copy private gcloud configuration files." },
   { flag := "--no_gcloud_config", dest := "copy_gcloud_config",
     action := ArgAction.storeFalse, dflt := DefaultVal.boolV true,
     help := "Do not copy private gcloud configuration files." },
   { flag := "--aws_credentials", dest := "aws_credentials", action := ArgAction.store,
     dflt := DefaultVal.noneV,
     help := "If specified, the path to the aws credentials file." },
   { flag := "--address", dest := "address", action := ArgAction.store,
     dflt := DefaultVal.noneV,
     help := "The IP address to assign to the new instance. The address may" ++
       " be an IP address or the name or URI of an address resource." },
   { flag := "--scopes", dest := "scopes", action := ArgAction.store,
     dflt := DefaultVal.strV "compute-rw,storage-full,monitoring-write,logging-write",
     help := "Create the instance with these scopes." ++
       "The default are the minimal scopes needed to run the development" ++
       " scripts. This is currently \"compute-rw,storage-rw,monitoring-write,logging-write\"." }]

/-- The namespace produced by `parse_args` before any flag is applied:
each destination holds the default of its first registration. -/
def defaultOptions (user : String) : Options :=
  { instName := user ++ "-spinnaker-dev"
    project := none
    zone := none
    disk_type := "pd-ssd"
    disk_size := "200GB"
    machine_type := "n1-standard-8"
    copy_personal_files := true
    copy_home_spinnaker := false
    copy_git_credentials := false
    copy_gcloud_config := false
    aws_credentials := none
    address := none
    scopes := "compute-rw,storage-full,monitoring-write,logging-write" }

/-- Write a boolean flag value to its destination field. -/
def setOptBool (o : Options) (dest : String) (b : Bool) : Options :=
  if dest = "copy_personal_files" then { o with copy_personal_files := b }
  else if dest = "copy_home_spinnaker" then { o with copy_home_spinnaker := b }
  else if dest = "copy_git_credentials" then { o with copy_git_credentials := b }
  else if dest = "copy_gcloud_config" then { o with copy_gcloud_config := b }
  else o

/-- Write a string option value to its destination field. -/
def setOptStr (o : Options) (dest v : String) : Options :=
  if dest = "instance" then { o with instName := v }
  else if dest = "project" then { o with project := some v }
  else if dest = "zone" then { o with zone := some v }
  else if dest = "disk_type" then { o with disk_type := v }
  else if dest = "disk_size" then { o with disk_size := v }
  else if dest = "machine_type" then { o with machine_type := v }
  else if dest = "aws_credentials" then { o with aws_credentials := some v }
  else if dest = "address" then { o with address := some v }
  else if dest = "scopes" then { o with scopes := v }
  else o

/-- Apply the command-line tokens to the options record. -/
def applyArgs (specs : List ArgSpec) (o : Options) : List String → Except PyErr Options
  | [] => Except.ok o
  | tok :: rest =>
    match specs.find? (fun sp => sp.flag == tok) with
    | none => Except.error (PyErr.argumentError ("unrecognized arguments: " ++ tok))
    | some sp =>
      match sp.action with
      | ArgAction.storeTrue => applyArgs specs (setOptBool o sp.dest true) rest
      | ArgAction.storeFalse => applyArgs specs (setOptBool o sp.dest false) rest
      | ArgAction.store =>
        match rest with
        | [] => Except.error (PyErr.argumentError ("argument " ++ tok ++ ": expected one argument"))
        | v :: rest2 => applyArgs specs (setOptStr o sp.dest v) rest2

/-- Build the parser and parse `argv`.  Building the parser evaluates the
`--instance` default, so an unset `USER` raises `KeyError` before any
token is examined. -/
def parse_args (env : Env) (argv : List String) : Except PyErr Options :=
  match env.envVars "USER" with
  | none => Except.error (PyErr.keyError "USER")
  | some user =>
    let specs := init_argument_specs user
    applyArgs specs (defaultOptions user) argv

/-! ### Copy procedures -/

/-- `copy_dir(options, source, target)`: print, then run a recursive
`gcloud compute scp` through the retry wrapper. -/
def copy_dir (env : Env) (o : Options) (source target : String) :
    List Action × Except PyErr Options :=
  let pr := Action.print ("Copying dir " ++ source ++ " to " ++ target)
  match get_project env o with
  | (a1, Except.error e) => (pr :: a1, Except.error e)
  | (a1, Except.ok (p, o1)) =>
    let za := get_zone env o1
    let cmd := String.intercalate " "
      ["gcloud compute scp", "--project", p, "--zone", za.2.1, "--recurse",
       source, za.2.2.instName ++ ":" ++ target]
    (pr :: (a1 ++ za.1 ++ [Action.execRetry cmd]), Except.ok za.2.2)

/-- `copy_custom_file(options, source, target)`: run a
`gcloud compute copy-files` through the retry wrapper. -/
def copy_custom_file (env : Env) (o : Options) (source target : String) :
    List Action × Except PyErr Options :=
  match get_project env o with
  | (a1, Except.error e) => (a1, Except.error e)
  | (a1, Except.ok (p, o1)) =>
    let za := get_zone env o1
    let cmd := String.intercalate " "
      ["gcloud compute copy-files", "--project", p, "--zone", za.2.1,
       source, za.2.2.instName ++ ":" ++ target]
    (a1 ++ za.1 ++ [Action.execRetry cmd], Except.ok za.2.2)

/-- The quoted absolute paths, among `sources` under `base_dir` in the
home directory, that exist on the local filesystem (the `have` list of
`copy_home_file_list`). -/
def collectHave (cwd home : String) (fe : String → Bool) (base_dir : String) :
    List String → List String
  | [] => []
  | f :: rest =>
    let full := abspath cwd (pathJoin (pathJoin home base_dir) f)
    (if fe full then ["\"" ++ full ++ "\""] else []) ++ collectHave cwd home fe base_dir rest

/-- `copy_home_file_list(options, type, base_dir, sources)`: filter the
candidate paths to those that exist, copy them if any remain, otherwise
print a skip notice. -/
def copy_home_file_list (env : Env) (o : Options) (ty base_dir : String)
    (sources : List String) : List Action × Except PyErr Options :=
  match env.envVars "HOME" with
  | none =>
    if sources.isEmpty then
      ([Action.print ("Skipping " ++ ty ++ " because there are no files.")], Except.ok o)
    else ([], Except.error (PyErr.keyError "HOME"))
  | some home =>
    let haveList := collectHave env.cwd home env.fileExists base_dir sources
    if haveList.isEmpty then
      ([Action.print ("Skipping " ++ ty ++ " because there are no files.")], Except.ok o)
    else
      let res := copy_custom_file env o (String.intercalate " " haveList) base_dir
      (Action.print ("Copying " ++ ty ++ "...") :: res.1, res.2)

/-- `maybe_inform(type, test_path, option_to_enable)`. -/
def maybe_inform (env : Env) (ty test_path option_to_enable : String) :
    List Action × Except PyErr Unit :=
  match env.envVars "HOME" with
  | none => ([], Except.error (PyErr.keyError "HOME"))
  | some home =>
    if env.fileExists (pathJoin home test_path) then
      ([Action.print ("Skipping " ++ ty ++ " because missing " ++ option_to_enable ++ ".")],
        Except.ok ())
    else ([], Except.ok ())

/-- `maybe_copy_aws_credentials(options)`. -/
def maybe_copy_aws_credentials (env : Env) (o : Options) :
    List Action × Except PyErr Options :=
  if pyTruthy o.aws_credentials then
    let res := copy_custom_file env o (o.aws_credentials.getD "") ".aws/credentials"
    (Action.print "Copying aws credentials..." :: res.1, res.2)
  else
    let res := maybe_inform env "aws credentials" ".aws/credentials" "--aws_credentials"
    (res.1, res.2.map (fun _ => o))

/-- `maybe_copy_gcloud_config(options)`. -/
def maybe_copy_gcloud_config (env : Env) (o : Options) :
    List Action × Except PyErr Options :=
  if o.copy_gcloud_config then
    copy_home_file_list env o "gcloud credentials" ".config/gcloud"
      ["application_default_credentials.json", "credentials", "properties"]
  else
    let res := maybe_inform env "gcloud credentials" ".config/gcloud/credentials"
      "--copy_gcloud_config"
    (res.1, res.2.map (fun _ => o))

/-- `maybe_copy_git_credentials(options)`. -/
def maybe_copy_git_credentials (env : Env) (o : Options) :
    List Action × Except PyErr Options :=
  if o.copy_git_credentials then
    copy_home_file_list env o "git credentials" "." [".git-credentials"]
  else
    let res := maybe_inform env "git credentials" ".git-credentials" "--copy_git_credentials"
    (res.1, res.2.map (fun _ => o))

/-- `maybe_copy_home_spinnaker(options)`: when enabled, recursively copy
`~/.spinnaker` and `~/.hal` with no existence check. -/
def maybe_copy_home_spinnaker (env : Env) (o : Options) :
    List Action × Except PyErr Options :=
  if !o.copy_home_spinnaker then ([], Except.ok o)
  else
    match osEnviron env "HOME" with
    | Except.error e => ([], Except.error e)
    | Except.ok home_path =>
      match copy_dir env o (pathJoin home_path ".spinnaker") "." with
      | (a1, Except.error e) => (a1, Except.error e)
      | (a1, Except.ok o1) =>
        let res := copy_dir env o1 (pathJoin home_path ".hal") "."
        (a1 ++ res.1, res.2)

/-- `copy_personal_files(options)`: dotfiles, then the gradle file. -/
def copy_personal_files (env : Env) (o : Options) : List Action × Except PyErr Options :=
  match copy_home_file_list env o "personal configuration files" "."
      [".gitconfig", ".emacs", ".bashrc", ".screenrc"] with
  | (a1, Except.error e) => (a1, Except.error e)
  | (a1, Except.ok o1) =>
    let res := copy_home_file_list env o1 "gradle configuration" ".gradle"
      ["gradle.properties"]
    (a1 ++ res.1, res.2)

/-- `make_remote_directories(options)`: create, over SSH, the remote
directories needed by the enabled copy categories. -/
def make_remote_directories (env : Env) (o : Options) : List Action × Except PyErr Options :=
  let all :=
    (if o.copy_home_spinnaker then [".hal", ".spinnaker"] else []) ++
    (if o.copy_personal_files then [".gradle"] else []) ++
    (if pyTruthy o.aws_credentials then [".aws"] else []) ++
    (if o.copy_gcloud_config then [".config/gcloud"] else [])
  if !all.isEmpty then
    match get_project env o with
    | (a1, Except.error e) => (a1, Except.error e)
    | (a1, Except.ok (p, o1)) =>
      let za := get_zone env o1
      let cmd := String.intercalate " "
        ["gcloud compute ssh", o.instName, "--project", p, "--zone", za.2.1,
         "--command='bash -c \"for i in " ++ String.intercalate " " all ++
           "; do mkdir -p \\$i; done\"'"]
      (a1 ++ za.1 ++ [Action.execRetry cmd], Except.ok za.2.2)
  else ([], Except.ok o)

/-! ### Instance creation, preflight checks, the driver -/

/-- `create_instance(options)`: build and run the one
`gcloud compute instances create` command. -/
def create_instance (env : Env) (o : Options) : List Action × Except PyErr Options :=
  match get_project env o with
  | (a1, Except.error e) => (a1, Except.error e)
  | (a1, Except.ok (project, o1)) =>
    let za := get_zone env o1
    let o2 := za.2.2
    let pr1 := Action.print ("Creating instance " ++ project ++ "/" ++ za.2.1 ++ "/" ++
      o2.instName)
    let pr2 := Action.print ("  with --machine_type=" ++ o2.machine_type ++
      " and --disk_size=" ++ o2.disk_size ++ "...")
    let google_dev_dir := pathJoin env.fileDir "../google/dev"
    let dev_dir := env.fileDir
    let wr := Action.writeFile env.tempFile "/opt/spinnaker/install/install_development.sh"
    let metadata_files := "startup-script=" ++ google_dev_dir ++ "/google_install_loader.py" ++
      ",sh_bootstrap_dev=" ++ dev_dir ++ "/bootstrap_dev.sh" ++
      ",sh_install_development=" ++ dev_dir ++ "/install_development.sh" ++
      ",startup_command=" ++ env.tempFile
    let metadata := "startup_loader_files=sh_install_development+sh_bootstrap_dev"
    match get_project env o2 with
    | (a2, Except.error e) => (a1 ++ za.1 ++ [pr1, pr2, wr] ++ a2, Except.error e)
    | (a2, Except.ok (p2, o3)) =>
      let zb := get_zone env o3
      let o4 := zb.2.2
      let cmd := String.intercalate " "
        (["gcloud", "compute", "instances", "create", o4.instName,
          "--project", p2, "--zone", zb.2.1,
          "--machine-type", o4.machine_type,
          "--image-family", "ubuntu-1604-lts",
          "--image-project", "ubuntu-os-cloud",
          "--scopes", o4.scopes,
          "--boot-disk-size=" ++ o4.disk_size,
          "--boot-disk-type=" ++ o4.disk_type,
          "--metadata", metadata,
          "--metadata-from-file=" ++ metadata_files] ++
          (if pyTruthy o4.address then ["--address", o4.address.getD ""] else []))
      (a1 ++ za.1 ++ [pr1, pr2, wr] ++ a2 ++ zb.1 ++ [Action.execCheck cmd],
        (env.checkSub cmd).map (fun _ => o4))

/-- `check_gcloud()`: verify the gcloud CLI exists; otherwise write
install instructions to stderr and `sys.exit(-1)`. -/
def check_gcloud (env : Env) : List Action × Except Halt Unit :=
  if (env.runSub "gcloud --version").1 = 0 then
    ([Action.execRun "gcloud --version"], Except.ok ())
  else
    ([Action.execRun "gcloud --version",
      Action.stderr ("ERROR: This program requires gcloud. To obtain gcloud:\n" ++
        "       curl https://sdk.cloud.google.com | bash\n")],
      Except.error (Halt.exited (-1)))

/-- `check_args(options)`: fail fast when the explicitly supplied AWS
credentials path does not exist. -/
def check_args (env : Env) (o : Options) : List Action × Except Halt Unit :=
  if pyTruthy o.aws_credentials && !env.fileExists (o.aws_credentials.getD "") then
    ([Action.stderr ("ERROR: " ++ o.aws_credentials.getD "" ++ " not found.\n")],
      Except.error (Halt.exited (-1)))
  else ([], Except.ok ())

/-- The `__NEXT_STEP_INSTRUCTIONS` template, formatted. -/
def next_step_instructions (project zone inst : String) : String :=
  "\nTo finish the installation, follow these steps:\n\n" ++
  "(1) Log into your new instance (with or without tunneling ssh-flags):\n\n" ++
  "  gcloud compute ssh --project " ++ project ++ " --zone " ++ zone ++ " " ++ inst ++
  " --ssh-flag=\"-L 9000:localhost:9000\" --ssh-flag=\"-L 8084:localhost:8084\"\n\n\n" ++
  "(2) Wait for the installation to complete:\n\n" ++
  "  tail -f /var/log/syslog\n\n" ++
  "  When the instance startup script finishes installing the developer tools\n" ++
  "  you will be ready to continue. ^C to terminate the tail process.\n\n\n" ++
  "(3) Set up the build environment:\n\n" ++
  "  source /opt/spinnaker/install/bootstrap_dev.sh\n\n\n" ++
  "For more information about Spinnaker, see http://spinnaker.io\n\n"

/-- The final `print(__NEXT_STEP_INSTRUCTIONS.format(...))` of the
driver. -/
def final_report (env : Env) (o : Options) : List Action × Except PyErr Unit :=
  match get_project env o with
  | (a1, Except.error e) => (a1, Except.error e)
  | (a1, Except.ok (p, o1)) =>
    let za := get_zone env o1
    (a1 ++ za.1 ++ [Action.print (next_step_instructions p za.2.1 za.2.2.instName)],
      Except.ok ())

/-- Sequencing of trace-producing steps: a halt stops the flow, keeping
the actions performed so far. -/
def andThen {α β : Type} (x : List Action × Except Halt α)
    (f : α → List Action × Except Halt β) : List Action × Except Halt β :=
  match x with
  | (acts, Except.error h) => (acts, Except.error h)
  | (acts, Except.ok v) =>
    match f v with
    | (acts2, r) => (acts ++ acts2, r)

/-- An uncaught Python exception halts the driver. -/
def liftPy {α : Type} (x : List Action × Except PyErr α) : List Action × Except Halt α :=
  (x.1, x.2.mapError Halt.raised)

/-- The `if __name__ == '__main__':` driver, start to finish. -/
def main_program (env : Env) (argv : List String) : List Action × Except Halt Unit :=
  andThen (check_gcloud env) (fun _ =>
  andThen (([] : List Action), (parse_args env argv).mapError Halt.raised) (fun o =>
  andThen (check_args env o) (fun _ =>
  andThen (liftPy (create_instance env o)) (fun o1 =>
  andThen (liftPy (make_remote_directories env o1)) (fun o2 =>
  andThen (liftPy (if o2.copy_personal_files then copy_personal_files env o2
                   else (([] : List Action), Except.ok o2))) (fun o3 =>
  andThen (liftPy (maybe_copy_git_credentials env o3)) (fun o4 =>
  andThen (liftPy (maybe_copy_aws_credentials env o4)) (fun o5 =>
  andThen (liftPy (maybe_copy_home_spinnaker env o5)) (fun o6 =>
  andThen (liftPy (maybe_copy_gcloud_config env o6)) (fun o7 =>
  liftPy (final_report env o7)))))))))))

/-! ### Trace measurements -/

/-- Is this action an invocation of the retry wrapper (a copy or remote
mkdir command)? -/
def isRetryAction : Action → Bool
  | Action.execRetry _ => true
  | _ => false

/-- Number of commands issued through `try_until_ready` in a trace. -/
def countRetry (l : List Action) : Nat := (l.filter isRetryAction).length

/-- Number of `gcloud config list` invocations in a trace (the external
fallback source of `get_project`). -/
def countProjectQueries (l : List Action) : Nat :=
  (l.filter (fun a => a = Action.execCheck "gcloud config list")).length

/-- Number of metadata-endpoint requests in a trace (the external
fallback source of `get_zone`). -/
def countZoneQueries (l : List Action) : Nat :=
  (l.filter (fun a =>
    a = Action.httpGet (GOOGLE_INSTANCE_METADATA_URL ++ "/zone"))).length

/-- The process exit code produced by `sys.exit(c)`. -/
def processExitCode (c : Int) : Nat := (Int.emod c 256).toNat

/-- The copy-controlling fields, which the lazy project/zone fills never
touch. -/
def sameFlags (o1 o2 : Options) : Prop :=
  o1.copy_personal_files = o2.copy_personal_files ∧
  o1.copy_home_spinnaker = o2.copy_home_spinnaker ∧
  o1.copy_git_credentials = o2.copy_git_credentials ∧
  o1.copy_gcloud_config = o2.copy_gcloud_config ∧
  o1.aws_credentials = o2.aws_credentials

/-! ### Derived observations on the parser -/

/-- Does the parser define a flag writing `act` to destination `d`? -/
def hasFlag (specs : List ArgSpec) (d : String) (act : ArgAction) : Bool :=
  specs.any (fun sp => sp.dest == d && sp.action == act)

/-- The registered default of the `--instance` option. -/
def instanceDefault (specs : List ArgSpec) : Option DefaultVal :=
  (specs.find? (fun sp => sp.flag == "--instance")).map ArgSpec.dflt

/-! ### Concrete test worlds -/

/-- A concrete environment: user `dev`, empty filesystem, healthy gcloud,
a configured project, and a metadata endpoint refusing connections. -/
def testEnv : Env :=
  { envVars := fun k =>
      if k = "USER" then some "dev" else if k = "HOME" then some "/home/dev" else none
    fileExists := fun _ => false
    cwd := "/cwd"
    runSub := fun _ => (0, "")
    checkSub := fun c =>
      if c = "gcloud config list" then Except.ok "project = my-proj\n" else Except.ok "done"
    metadataZone := Except.error (NetErr.urlError "connection refused")
    fileDir := "/repo/dev"
    tempFile := "/tmp/startup123" }

/-- `testEnv` without a `USER` environment variable. -/
def envNoUser : Env :=
  { testEnv with envVars := fun k => if k = "HOME" then some "/home/dev" else none }

/-- `testEnv` whose gcloud configuration listing has an empty project
value. -/
def envEmptyProject : Env :=
  { testEnv with checkSub := fun _ => Except.ok "project = \ncore stuff\n" }

/-- `testEnv` whose gcloud configuration listing lacks the project line. -/
def envNoProjectLine : Env :=
  { testEnv with checkSub := fun _ => Except.ok "core section without that line\n" }

/-- `testEnv` without a working gcloud CLI. -/
def envNoGcloud : Env :=
  { testEnv with runSub := fun _ => (127, "gcloud: command not found") }

/-- Options with explicit project and zone, so copies need no lookup. -/
def optsPZ : Options :=
  { defaultOptions "dev" with project := some "p", zone := some "z" }

/-- `optsPZ` with the home-Spinnaker copy enabled. -/
def optsSpin : Options :=
  { optsPZ with copy_home_spinnaker := true }

/-! ### Lemmas about the retry loop -/

theorem invokeCount_msg (s : String) (tr : List REvent) :
    invokeCount (REvent.msg s :: tr) = invokeCount tr := by
  simp [invokeCount, List.filter_cons]

theorem invokeCount_sleep (n : Nat) (tr : List REvent) :
    invokeCount (REvent.sleep n :: tr) = invokeCount tr := by
  simp [invokeCount, List.filter_cons]

theorem invokeCount_msg_append (L : List String) (tr : List REvent) :
    invokeCount (L.map REvent.msg ++ tr) = invokeCount tr := by
  induction L with
  | nil => rfl
  | cons s L ih => rw [List.map_cons, List.cons_append, invokeCount_msg]; exact ih

theorem invokeCount_invoke (c : String) (tr : List REvent) :
    invokeCount (REvent.invoke c :: tr) = invokeCount tr + 1 := by
  simp [invokeCount, List.filter_cons]

theorem retrySkeleton_msg (s : String) (tr : List REvent) :
    retrySkeleton (REvent.msg s :: tr) = retrySkeleton tr := by
  simp [retrySkeleton, List.filter_cons]

theorem retrySkeleton_msg_append (L : List String) (tr : List REvent) :
    retrySkeleton (L.map REvent.msg ++ tr) = retrySkeleton tr := by
  induction L with
  | nil => rfl
  | cons s L ih => rw [List.map_cons, List.cons_append, retrySkeleton_msg]; exact ih

theorem retrySkeleton_invoke (c : String) (tr : List REvent) :
    retrySkeleton (REvent.invoke c :: tr) = REvent.invoke c :: retrySkeleton tr := by
  simp [retrySkeleton, List.filter_cons]

theorem retrySkeleton_sleep (n : Nat) (tr : List REvent) :
    retrySkeleton (REvent.sleep n :: tr) = REvent.sleep n :: retrySkeleton tr := by
  simp [retrySkeleton, List.filter_cons]

/-- When the retry loop terminates, the attempt it stopped at is the
first one with exit code zero, and the command was invoked once per
leading failure plus once for the success. -/
theorem try_success_spec (c : String) :
    ∀ (attempts : List Attempt) (tr : List REvent),
      try_until_ready c attempts = some tr →
      Option.map Attempt.retcode (attempts.get? (failCount attempts)) = some 0 ∧
      invokeCount tr = failCount attempts + 1 := by
  intro attempts
  induction attempts with
  | nil => intro tr h; simp [try_until_ready] at h
  | cons a rest ih =>
    intro tr h
    by_cases h0 : a.retcode = 0
    · simp only [try_until_ready, if_pos h0, Option.some.injEq] at h
      subst h
      have hfc : failCount (a :: rest) = 0 := by
        simp [failCount, List.takeWhile_cons, h0]
      rw [hfc]
      exact ⟨by simp [h0], by simp [invokeCount, List.filter_cons]⟩
    · simp only [try_until_ready, if_neg h0] at h
      cases heq : try_until_ready c rest with
      | none => rw [heq] at h; simp at h
      | some tr2 =>
        rw [heq] at h
        simp only [Option.some.injEq] at h
        subst h
        obtain ⟨ih1, ih2⟩ := ih tr2 heq
        have hfc : failCount (a :: rest) = failCount rest + 1 := by
          simp [failCount, List.takeWhile_cons, h0]
        refine ⟨by rw [hfc]; simpa using ih1, ?_⟩
        rw [hfc, invokeCount_invoke, invokeCount_msg_append, invokeCount_sleep]
        omega

/-- The full trace of a run that fails twice and then succeeds. -/
theorem try_three (c s1 s2 s3 : String) (r1 r2 : Int) (h1 : r1 ≠ 0) (h2 : r2 ≠ 0) :
    try_until_ready c [⟨r1, s1⟩, ⟨r2, s2⟩, ⟨0, s3⟩] =
      some (REvent.invoke c :: ((failure_messages s1).map REvent.msg ++ REvent.sleep 5 ::
        (REvent.invoke c :: ((failure_messages s2).map REvent.msg ++ REvent.sleep 5 ::
          [REvent.invoke c])))) := by
  simp [try_until_ready, h1, h2]

/-- C1: `try_until_ready` returns only once an invocation of the wrapped
command exits with code zero; on a fail-fail-succeed outcome sequence the
command is invoked exactly three times with a 5-second sleep between
consecutive invocations, and the loop then returns. -/
theorem C1_try_until_ready_success (c s1 s2 s3 : String) (r1 r2 : Int)
    (attempts : List Attempt) (tr : List REvent)
    (h1 : r1 ≠ 0) (h2 : r2 ≠ 0)
    (h3 : try_until_ready c attempts = some tr) :
    Option.map Attempt.retcode (attempts.get? (failCount attempts)) = some 0 ∧
    invokeCount tr = failCount attempts + 1 ∧
    Option.map retrySkeleton (try_until_ready c [⟨r1, s1⟩, ⟨r2, s2⟩, ⟨0, s3⟩]) =
      some [REvent.invoke c, REvent.sleep 5, REvent.invoke c, REvent.sleep 5,
        REvent.invoke c] := by
  obtain ⟨ha, hb⟩ := try_success_spec c attempts tr h3
  refine ⟨ha, hb, ?_⟩
  rw [try_three c s1 s2 s3 r1 r2 h1 h2]
  simp only [Option.map_some']
  rw [retrySkeleton_invoke, retrySkeleton_msg_append, retrySkeleton_sleep,
    retrySkeleton_invoke, retrySkeleton_msg_append, retrySkeleton_sleep,
    retrySkeleton_invoke]
  rfl

/-- C1 witness: a concrete fail-fail-succeed run. -/
theorem C1_try_until_ready_success_witness :
    Option.map Attempt.retcode
        (([⟨1, "boom"⟩, ⟨255, "still down"⟩, ⟨0, "ok"⟩] : List Attempt).get?
          (failCount [⟨1, "boom"⟩, ⟨255, "still down"⟩, ⟨0, "ok"⟩])) = some 0 ∧
    invokeCount [REvent.invoke "gcloud compute ssh vm", REvent.msg "boom",
      REvent.msg "Retrying in 5s.", REvent.sleep 5,
      REvent.invoke "gcloud compute ssh vm", REvent.msg "still down",
      REvent.msg "Retrying in 5s.", REvent.sleep 5,
      REvent.invoke "gcloud compute ssh vm"] =
      failCount [⟨1, "boom"⟩, ⟨255, "still down"⟩, ⟨0, "ok"⟩] + 1 ∧
    Option.map retrySkeleton
        (try_until_ready "gcloud compute ssh vm"
          [⟨1, "boom"⟩, ⟨255, "still down"⟩, ⟨0, "ok"⟩]) =
      some [REvent.invoke "gcloud compute ssh vm", REvent.sleep 5,
        REvent.invoke "gcloud compute ssh vm", REvent.sleep 5,
        REvent.invoke "gcloud compute ssh vm"] :=
  C1_try_until_ready_success "gcloud compute ssh vm" "boom" "still down" "ok" 1 255
    [⟨1, "boom"⟩, ⟨255, "still down"⟩, ⟨0, "ok"⟩]
    [REvent.invoke "gcloud compute ssh vm", REvent.msg "boom",
      REvent.msg "Retrying in 5s.", REvent.sleep 5,
      REvent.invoke "gcloud compute ssh vm", REvent.msg "still down",
      REvent.msg "Retrying in 5s.", REvent.sleep 5,
      REvent.invoke "gcloud compute ssh vm"]
    (by decide) (by decide) (by decide)

/-! ### Lemmas about substring search -/

/-- `findIdx` finds exactly the least occurrence index, when one exists. -/
theorem findIdx_spec (pat : List Char) (s : List Char) :
    (findIdx pat s = none ∧ ∀ k, occursAt pat s k = false) ∨
    (∃ m, findIdx pat s = some m ∧ occursAt pat s m = true ∧
      ∀ j, j < m → occursAt pat s j = false) := by
  induction s with
  | nil =>
    cases h : pat.isPrefixOf ([] : List Char) with
    | true =>
      right
      refine ⟨0, by simp [findIdx, h], ?_, fun j hj => absurd hj (Nat.not_lt_zero j)⟩
      simp only [occursAt, List.drop_nil]
      exact h
    | false =>
      left
      refine ⟨by simp [findIdx, h], fun k => ?_⟩
      simp only [occursAt, List.drop_nil]
      exact h
  | cons c rest ih =>
    cases h : pat.isPrefixOf (c :: rest) with
    | true =>
      right
      refine ⟨0, by simp [findIdx, h], ?_, fun j hj => absurd hj (Nat.not_lt_zero j)⟩
      simp only [occursAt, List.drop_zero]
      exact h
    | false =>
      rcases ih with ⟨hn, hall⟩ | ⟨m, hm, hocc, hmin⟩
      · left
        refine ⟨by simp [findIdx, h, hn], fun k => ?_⟩
        cases k with
        | zero => simp only [occursAt, List.drop_zero]; exact h
        | succ k => simp only [occursAt, List.drop_succ_cons]; exact hall k
      · right
        refine ⟨m + 1, by simp [findIdx, h, hm], ?_, fun j hj => ?_⟩
        · simp only [occursAt, List.drop_succ_cons]
          exact hocc
        · cases j with
          | zero => simp only [occursAt, List.drop_zero]; exact h
          | succ j => simp only [occursAt, List.drop_succ_cons]; exact hmin j (by omega)

/-- C2 counterexample: an output that contains "refused" at position
zero is handled by the echo branch, not the quiet branch, because the
code tests `stdout.find('refused') > 0`. -/
theorem C2_refused_at_zero_counterexample :
    occursAt "refused".toList "refused".toList 0 = true ∧
    failure_messages "refused" = ["refused", "Retrying in 5s."] ∧
    failure_messages "refused" ≠
      ["New instance does not seem ready yet...retry in 5s."] :=
  ⟨by decide, by decide, by decide⟩

/-- C2 (amended): the quiet message is printed exactly when "refused"
occurs in the output at some position but not at position zero;
otherwise (no occurrence, or first occurrence at position zero) the
stripped output and the retry message are printed. -/
theorem C2_refused_position_amended (out : String) :
    ((∃ i, occursAt "refused".toList out.toList i = true) ∧
        occursAt "refused".toList out.toList 0 = false →
      failure_messages out = ["New instance does not seem ready yet...retry in 5s."]) ∧
    ((∀ i, occursAt "refused".toList out.toList i = false) ∨
        occursAt "refused".toList out.toList 0 = true →
      failure_messages out = [pyStrip out, "Retrying in 5s."]) := by
  have spec := findIdx_spec "refused".toList out.toList
  constructor
  · rintro ⟨⟨i, hi⟩, h0⟩
    rcases spec with ⟨_, hall⟩ | ⟨m, hm, hocc, _⟩
    · rw [hall i] at hi; exact absurd hi (by simp)
    · have hm0 : m ≠ 0 := by
        rintro rfl
        rw [hocc] at h0
        exact absurd h0 (by simp)
      have hsf : strFind out "refused" = (m : Int) := by unfold strFind; rw [hm]
      have hpos : (0 : Int) < (m : Int) := by exact_mod_cast Nat.pos_of_ne_zero hm0
      unfold failure_messages
      rw [hsf, if_pos hpos]
  · rintro (hall | h0)
    · rcases spec with ⟨hn, _⟩ | ⟨m, _, hocc, _⟩
      · have hsf : strFind out "refused" = -1 := by unfold strFind; rw [hn]
        unfold failure_messages
        rw [hsf, if_neg (by decide)]
      · rw [hall m] at hocc
        exact absurd hocc (by simp)
    · rcases spec with ⟨_, hall⟩ | ⟨m, hm, _, hmin⟩
      · rw [hall 0] at h0
        exact absurd h0 (by simp)
      · have hm0 : m = 0 := by
          by_contra hne
          have := hmin 0 (Nat.pos_of_ne_zero hne)
          rw [this] at h0
          exact absurd h0 (by simp)
        subst hm0
        have hsf : strFind out "refused" = (0 : Int) := by unfold strFind; rw [hm]; rfl
        unfold failure_messages
        rw [hsf, if_neg (by decide)]

/-- C2 amended witness: "refused" at position one selects the quiet
message, "refused" at position zero selects the echo branch. -/
theorem C2_refused_position_amended_witness :
    failure_messages " refused" =
      ["New instance does not seem ready yet...retry in 5s."] ∧
    failure_messages "refused by peer" = ["refused by peer", "Retrying in 5s."] :=
  ⟨(C2_refused_position_amended " refused").1 ⟨⟨1, by decide⟩, by decide⟩,
   (C2_refused_position_amended "refused by peer").2 (Or.inr (by decide))⟩

/-! ### C4: paired enable/disable flags -/

/-- C4 counterexample: the home-Spinnaker copy toggle has an enable flag
but no paired disable flag in the argument parser. -/
theorem C4_home_spinnaker_unpaired_counterexample :
    hasFlag (init_argument_specs "dev") "copy_home_spinnaker" ArgAction.storeTrue = true ∧
    hasFlag (init_argument_specs "dev") "copy_home_spinnaker" ArgAction.storeFalse = false := by
  decide

/-- C4 (amended): the personal-files, git-credentials and gcloud-config
toggles each have a paired enable and disable flag; the home-Spinnaker
toggle has only an enable flag (its default is off). -/
theorem C4_copy_toggle_flags_amended (u : String) :
    hasFlag (init_argument_specs u) "copy_personal_files" ArgAction.storeTrue = true ∧
    hasFlag (init_argument_specs u) "copy_personal_files" ArgAction.storeFalse = true ∧
    hasFlag (init_argument_specs u) "copy_git_credentials" ArgAction.storeTrue = true ∧
    hasFlag (init_argument_specs u) "copy_git_credentials" ArgAction.storeFalse = true ∧
    hasFlag (init_argument_specs u) "copy_gcloud_config" ArgAction.storeTrue = true ∧
    hasFlag (init_argument_specs u) "copy_gcloud_config" ArgAction.storeFalse = true ∧
    hasFlag (init_argument_specs u) "copy_home_spinnaker" ArgAction.storeTrue = true ∧
    hasFlag (init_argument_specs u) "copy_home_spinnaker" ArgAction.storeFalse = false := by
  refine ⟨rfl, rfl, rfl, rfl, rfl, rfl, rfl, rfl⟩

/-! ### C6: zone fallback on network errors -/

/-- C6: when `--zone` is not supplied and the metadata-endpoint query
fails with any HTTP or network error, `get_zone` returns the fixed
default zone `us-central1-f` and does not propagate the error. -/
theorem C6_zone_fallback (env : Env) (o : Options) (e : NetErr)
    (h1 : o.zone = none) (h2 : env.metadataZone = Except.error e) :
    get_zone env o =
      ([Action.httpGet (GOOGLE_INSTANCE_METADATA_URL ++ "/zone")],
        ("us-central1-f", { o with zone := some "us-central1-f" })) := by
  simp [get_zone, h1, h2, pyTruthy]

/-- C6 witness: a connection-refused metadata endpoint. -/
theorem C6_zone_fallback_witness :
    get_zone testEnv (defaultOptions "dev") =
      ([Action.httpGet (GOOGLE_INSTANCE_METADATA_URL ++ "/zone")],
        ("us-central1-f", { defaultOptions "dev" with zone := some "us-central1-f" })) :=
  C6_zone_fallback testEnv (defaultOptions "dev") (NetErr.urlError "connection refused")
    rfl rfl

/-! ### C8: missing project line -/

/-- When the pattern occurs nowhere, the regex search fails. -/
theorem reSearchAux_none (pat : List Char) :
    ∀ s : List Char, (∀ i, occursAt pat s i = false) → reSearchAux pat s = none := by
  intro s
  induction s with
  | nil => intro _; rfl
  | cons c rest ih =>
    intro h
    have h0 : pat.isPrefixOf (c :: rest) = false := by
      have h00 := h 0
      simp only [occursAt, List.drop_zero] at h00
      exact h00
    have hrest : ∀ i, occursAt pat rest i = false := by
      intro i
      have hi := h (i + 1)
      simp only [occursAt, List.drop_succ_cons] at hi
      exact hi
    simp only [reSearchAux, h0, Bool.false_eq_true, if_false]
    exact ih hrest

/-- A nonempty pattern absent from every position below the length is
absent everywhere. -/
theorem occursAt_of_bounded (pat s : List Char) (hp : pat ≠ [])
    (h : ∀ i, i < s.length → occursAt pat s i = false) :
    ∀ i, occursAt pat s i = false := by
  intro i
  by_cases hi : i < s.length
  · exact h i hi
  · have hd : s.drop i = [] := List.drop_eq_nil_of_le (by omega)
    simp only [occursAt, hd]
    cases pat with
    | nil => exact absurd rfl hp
    | cons a l => rfl

/-- C8: when the project option is falsy and the gcloud configuration
listing contains no `project = ` line, `get_project` raises
(`AttributeError` on the failed match) instead of returning a value. -/
theorem C8_missing_project_line (env : Env) (o : Options) (stdout : String)
    (h1 : pyTruthy o.project = false)
    (h2 : env.checkSub "gcloud config list" = Except.ok stdout)
    (h3 : ∀ i, occursAt ("project = ".toList) stdout.toList i = false) :
    get_project env o =
      ([Action.execCheck "gcloud config list"], Except.error PyErr.attributeError) := by
  have hre : reSearchProject stdout = none := by
    unfold reSearchProject
    rw [reSearchAux_none ("project = ".toList) stdout.toList h3]
    rfl
  simp [get_project, h1, h2, hre]

/-- C8 witness: a configuration listing without the project line. -/
theorem C8_missing_project_line_witness :
    get_project envNoProjectLine (defaultOptions "dev") =
      ([Action.execCheck "gcloud config list"], Except.error PyErr.attributeError) :=
  C8_missing_project_line envNoProjectLine (defaultOptions "dev")
    "core section without that line\n" rfl rfl
    (occursAt_of_bounded ("project = ".toList) "core section without that line\n".toList
      (by decide) (by decide))

/-! ### C10: unguarded USER lookup -/

/-- C10: building the argument parser evaluates `os.environ['USER']`
unguardedly, so with `USER` unset parsing raises `KeyError` for every
argv, even one supplying `--instance`; with `USER` set the `--instance`
default is `USER + "-spinnaker-dev"`. -/
theorem C10_user_env_default (env : Env) (argv : List String) (u : String) :
    (env.envVars "USER" = none →
      parse_args env argv = Except.error (PyErr.keyError "USER")) ∧
    instanceDefault (init_argument_specs u) =
      some (DefaultVal.strV (u ++ "-spinnaker-dev")) := by
  constructor
  · intro h
    unfold parse_args
    rw [h]
  · rfl

/-- C10 witness: `USER` unset with `--instance` explicitly supplied. -/
theorem C10_user_env_default_witness :
    parse_args envNoUser ["--instance", "myvm"] = Except.error (PyErr.keyError "USER") ∧
    instanceDefault (init_argument_specs "bob") =
      some (DefaultVal.strV "bob-spinnaker-dev") :=
  ⟨(C10_user_env_default envNoUser ["--instance", "myvm"] "bob").1 rfl,
   (C10_user_env_default envNoUser [] "bob").2⟩

/-! ### Counting retry commands in traces -/

theorem pyTruthy_some_of_ne (s : String) (h : s ≠ "") : pyTruthy (some s) = true := by
  have he : s.isEmpty = false := by
    cases he : s.isEmpty with
    | false => rfl
    | true => exact absurd ((String.isEmpty_iff s).mp he) h
  simp [pyTruthy, he]

theorem countRetry_nil : countRetry [] = 0 := rfl

theorem countRetry_append (l1 l2 : List Action) :
    countRetry (l1 ++ l2) = countRetry l1 + countRetry l2 := by
  simp [countRetry, List.filter_append]

theorem countRetry_nonretry_cons (x : Action) (l : List Action)
    (hx : isRetryAction x = false) : countRetry (x :: l) = countRetry l := by
  simp [countRetry, List.filter_cons, hx]

theorem countRetry_retry_cons (c : String) (l : List Action) :
    countRetry (Action.execRetry c :: l) = countRetry l + 1 := by
  simp [countRetry, List.filter_cons, isRetryAction]

theorem countRetry_print_cons (s : String) (l : List Action) :
    countRetry (Action.print s :: l) = countRetry l := by
  simp [countRetry, List.filter_cons, isRetryAction]

theorem countRetry_write_cons (p c : String) (l : List Action) :
    countRetry (Action.writeFile p c :: l) = countRetry l := by
  simp [countRetry, List.filter_cons, isRetryAction]

theorem countRetry_check_cons (c : String) (l : List Action) :
    countRetry (Action.execCheck c :: l) = countRetry l := by
  simp [countRetry, List.filter_cons, isRetryAction]

/-- `get_project` issues no retry-wrapped command. -/
theorem countRetry_get_project (env : Env) (o : Options) :
    countRetry (get_project env o).1 = 0 := by
  cases hb : pyTruthy o.project with
  | true => simp [get_project, hb, countRetry]
  | false =>
    cases hcs : env.checkSub "gcloud config list" with
    | error e => simp [get_project, hb, hcs, countRetry, List.filter_cons, isRetryAction]
    | ok stdout =>
      cases hre : reSearchProject stdout with
      | none => simp [get_project, hb, hcs, hre, countRetry, List.filter_cons, isRetryAction]
      | some p => simp [get_project, hb, hcs, hre, countRetry, List.filter_cons, isRetryAction]

/-- `get_zone` issues no retry-wrapped command. -/
theorem countRetry_get_zone (env : Env) (o : Options) :
    countRetry (get_zone env o).1 = 0 := by
  cases hb : pyTruthy o.zone with
  | true => simp [get_zone, hb, countRetry]
  | false =>
    cases hmz : env.metadataZone with
    | error e => simp [get_zone, hb, hmz, countRetry, List.filter_cons, isRetryAction]
    | ok body => simp [get_zone, hb, hmz, countRetry, List.filter_cons, isRetryAction]

/-- A successful `copy_custom_file` issues exactly one retry-wrapped
command. -/
theorem countRetry_copy_custom_file_ok (env : Env) (o : Options) (s t : String)
    (acts : List Action) (o1 : Options)
    (h : copy_custom_file env o s t = (acts, Except.ok o1)) :
    countRetry acts = 1 := by
  unfold copy_custom_file at h
  rcases hgp : get_project env o with ⟨a1, r1⟩
  have ha1 : countRetry a1 = 0 := by
    have hc := countRetry_get_project env o
    rw [hgp] at hc
    exact hc
  rw [hgp] at h
  cases r1 with
  | error e => simp at h
  | ok pr =>
    obtain ⟨p, o2⟩ := pr
    simp only [Prod.mk.injEq, Except.ok.injEq] at h
    obtain ⟨hacts, _⟩ := h
    subst hacts
    rw [countRetry_append, countRetry_append, ha1, countRetry_get_zone,
      countRetry_retry_cons, countRetry_nil]

/-- A successful `copy_dir` issues exactly one retry-wrapped command. -/
theorem countRetry_copy_dir_ok (env : Env) (o : Options) (s t : String)
    (acts : List Action) (o1 : Options)
    (h : copy_dir env o s t = (acts, Except.ok o1)) :
    countRetry acts = 1 := by
  unfold copy_dir at h
  rcases hgp : get_project env o with ⟨a1, r1⟩
  have ha1 : countRetry a1 = 0 := by
    have hc := countRetry_get_project env o
    rw [hgp] at hc
    exact hc
  rw [hgp] at h
  cases r1 with
  | error e => simp at h
  | ok pr =>
    obtain ⟨p, o2⟩ := pr
    simp only [Prod.mk.injEq, Except.ok.injEq] at h
    obtain ⟨hacts, _⟩ := h
    subst hacts
    rw [countRetry_print_cons, countRetry_append, countRetry_append, ha1,
      countRetry_get_zone, countRetry_retry_cons, countRetry_nil]

/-! ### C7: lazy caching of project and zone -/

/-- C7 counterexample: an empty configured project value is fetched,
stored and returned, but being falsy it does not stop a second call from
querying the fallback source again. -/
theorem C7_empty_value_requeried_counterexample :
    get_project envEmptyProject (defaultOptions "dev") =
      ([Action.execCheck "gcloud config list"],
        Except.ok ("", { defaultOptions "dev" with project := some "" })) ∧
    countProjectQueries
        (get_project envEmptyProject
          { defaultOptions "dev" with project := some "" }).1 = 1 :=
  ⟨rfl, rfl⟩

/-- C7 (amended): with `--project` (resp. `--zone`) absent, a successful
call queries its fallback source exactly once and stores the fetched
value; provided that value is non-empty, a second call returns it with no
external query.  An empty fetched value is stored but, being falsy, is
queried again. -/
theorem C7_lazy_caching_amended (env : Env) (o : Options) :
    (∀ a p o1, o.project = none → get_project env o = (a, Except.ok (p, o1)) →
      countProjectQueries a = 1 ∧ o1.project = some p ∧
      (p ≠ "" → get_project env o1 = ([], Except.ok (p, o1)))) ∧
    (∀ a z o1, o.zone = none → get_zone env o = (a, (z, o1)) →
      countZoneQueries a = 1 ∧ o1.zone = some z ∧
      (z ≠ "" → get_zone env o1 = ([], (z, o1)))) := by
  constructor
  · intro a p o1 hproj heq
    have hb : pyTruthy o.project = false := by rw [hproj]; rfl
    cases hcs : env.checkSub "gcloud config list" with
    | error e =>
      have hgp : get_project env o =
          ([Action.execCheck "gcloud config list"], Except.error e) := by
        simp [get_project, hb, hcs]
      rw [hgp] at heq
      simp at heq
    | ok stdout =>
      cases hre : reSearchProject stdout with
      | none =>
        have hgp : get_project env o =
            ([Action.execCheck "gcloud config list"], Except.error PyErr.attributeError) := by
          simp [get_project, hb, hcs, hre]
        rw [hgp] at heq
        simp at heq
      | some q =>
        have hgp : get_project env o =
            ([Action.execCheck "gcloud config list"],
              Except.ok (q, { o with project := some q })) := by
          simp [get_project, hb, hcs, hre]
        rw [hgp] at heq
        simp only [Prod.mk.injEq, Except.ok.injEq] at heq
        obtain ⟨rfl, rfl, rfl⟩ := heq
        refine ⟨rfl, rfl, fun hp => ?_⟩
        have ht : pyTruthy (some q) = true := pyTruthy_some_of_ne q hp
        simp [get_project, ht]
  · intro a z o1 hzone heq
    have hb : pyTruthy o.zone = false := by rw [hzone]; rfl
    cases hmz : env.metadataZone with
    | error e =>
      have hgz : get_zone env o =
          ([Action.httpGet (GOOGLE_INSTANCE_METADATA_URL ++ "/zone")],
            ("us-central1-f", { o with zone := some "us-central1-f" })) := by
        simp [get_zone, hb, hmz]
      rw [hgz] at heq
      simp only [Prod.mk.injEq] at heq
      obtain ⟨rfl, rfl, rfl⟩ := heq
      refine ⟨rfl, rfl, fun hz => ?_⟩
      have ht : pyTruthy (some "us-central1-f") = true := pyTruthy_some_of_ne _ hz
      simp [get_zone, ht]
    | ok body =>
      have hgz : get_zone env o =
          ([Action.httpGet (GOOGLE_INSTANCE_METADATA_URL ++ "/zone")],
            (basename body, { o with zone := some (basename body) })) := by
        simp [get_zone, hb, hmz]
      rw [hgz] at heq
      simp only [Prod.mk.injEq] at heq
      obtain ⟨rfl, rfl, rfl⟩ := heq
      refine ⟨rfl, rfl, fun hz => ?_⟩
      have ht : pyTruthy (some (basename body)) = true := pyTruthy_some_of_ne _ hz
      simp [get_zone, ht]

/-- C7 amended witness: a configured project `my-proj` and the fallback
zone, both non-empty, are cached and returned without a second query. -/
theorem C7_lazy_caching_amended_witness :
    (countProjectQueries [Action.execCheck "gcloud config list"] = 1 ∧
      ({ defaultOptions "dev" with project := some "my-proj" } : Options).project =
        some "my-proj" ∧
      get_project testEnv { defaultOptions "dev" with project := some "my-proj" } =
        ([], Except.ok ("my-proj", { defaultOptions "dev" with project := some "my-proj" }))) ∧
    (countZoneQueries [Action.httpGet (GOOGLE_INSTANCE_METADATA_URL ++ "/zone")] = 1 ∧
      ({ defaultOptions "dev" with zone := some "us-central1-f" } : Options).zone =
        some "us-central1-f" ∧
      get_zone testEnv { defaultOptions "dev" with zone := some "us-central1-f" } =
        ([], ("us-central1-f", { defaultOptions "dev" with zone := some "us-central1-f" }))) := by
  constructor
  · obtain ⟨h1, h2, h3⟩ :=
      (C7_lazy_caching_amended testEnv (defaultOptions "dev")).1
        [Action.execCheck "gcloud config list"] "my-proj"
        { defaultOptions "dev" with project := some "my-proj" } rfl rfl
    exact ⟨h1, h2, h3 (by decide)⟩
  · obtain ⟨h1, h2, h3⟩ :=
      (C7_lazy_caching_amended testEnv (defaultOptions "dev")).2
        [Action.httpGet (GOOGLE_INSTANCE_METADATA_URL ++ "/zone")] "us-central1-f"
        { defaultOptions "dev" with zone := some "us-central1-f" } rfl rfl
    exact ⟨h1, h2, h3 (by decide)⟩

/-! ### C3: existence filtering of copy categories -/

/-- The `have` list is the quoted existing candidates, in order. -/
theorem collectHave_eq (cwd home : String) (fe : String → Bool) (base : String) :
    ∀ sources : List String,
      collectHave cwd home fe base sources =
        ((sources.map (fun f => abspath cwd (pathJoin (pathJoin home base) f))).filter
          fe).map (fun full => "\"" ++ full ++ "\"") := by
  intro sources
  induction sources with
  | nil => rfl
  | cons f rest ih =>
    simp only [collectHave, List.map_cons, List.filter_cons]
    cases hfe : fe (abspath cwd (pathJoin (pathJoin home base) f)) with
    | true => simp [hfe, ih]
    | false => simp [hfe, ih]

/-- C3 counterexample: with the home-Spinnaker flag enabled and neither
`~/.spinnaker` nor `~/.hal` existing locally, two recursive copy
commands are still issued (and no skip notice is printed). -/
theorem C3_unconditional_spinnaker_copy_counterexample :
    testEnv.fileExists (pathJoin "/home/dev" ".spinnaker") = false ∧
    testEnv.fileExists (pathJoin "/home/dev" ".hal") = false ∧
    countRetry (maybe_copy_home_spinnaker testEnv optsSpin).1 = 2 :=
  ⟨rfl, rfl, rfl⟩

/-- C3 (amended): the categories driven by `copy_home_file_list` filter
their candidates to existing paths, print a skip notice and issue no
copy when none exists, and issue exactly one copy command when some
exists; the home-Spinnaker category instead issues its two recursive
copy commands whenever enabled, with no existence check. -/
theorem C3_flag_gated_copies_amended (env : Env) (o : Options) (ty base_dir home : String)
    (sources : List String) (hh : env.envVars "HOME" = some home) :
    (((sources.map (fun f => abspath env.cwd (pathJoin (pathJoin home base_dir) f))).filter
        env.fileExists) = [] →
      copy_home_file_list env o ty base_dir sources =
        ([Action.print ("Skipping " ++ ty ++ " because there are no files.")],
          Except.ok o)) ∧
    (((sources.map (fun f => abspath env.cwd (pathJoin (pathJoin home base_dir) f))).filter
        env.fileExists) ≠ [] →
      ∀ acts o1, copy_home_file_list env o ty base_dir sources = (acts, Except.ok o1) →
        countRetry acts = 1) ∧
    (o.copy_home_spinnaker = true →
      ∀ acts o1, maybe_copy_home_spinnaker env o = (acts, Except.ok o1) →
        countRetry acts = 2) := by
  refine ⟨?_, ?_, ?_⟩
  · intro hempty
    simp [copy_home_file_list, hh, collectHave_eq, hempty]
  · intro hne acts o1 h
    have hie : (((sources.map
        (fun f => abspath env.cwd (pathJoin (pathJoin home base_dir) f))).filter
          env.fileExists).map (fun full => "\"" ++ full ++ "\"")).isEmpty = false := by
      cases hfe : (sources.map
          (fun f => abspath env.cwd (pathJoin (pathJoin home base_dir) f))).filter
            env.fileExists with
      | nil => exact absurd hfe hne
      | cons x xs => rfl
    simp only [copy_home_file_list, hh, collectHave_eq, hie, Bool.false_eq_true,
      if_false] at h
    rcases hcc : copy_custom_file env o
        (String.intercalate " "
          (((sources.map
            (fun f => abspath env.cwd (pathJoin (pathJoin home base_dir) f))).filter
              env.fileExists).map (fun full => "\"" ++ full ++ "\""))) base_dir with ⟨a2, r2⟩
    rw [hcc] at h
    simp only [Prod.mk.injEq] at h
    obtain ⟨hacts, hr⟩ := h
    subst hacts
    cases r2 with
    | error e => exact absurd hr (by simp)
    | ok o2 =>
      rw [countRetry_print_cons]
      exact countRetry_copy_custom_file_ok env o _ base_dir a2 o2 hcc
  · intro hflag acts o1 h
    simp only [maybe_copy_home_spinnaker, hflag, Bool.not_true, Bool.false_eq_true,
      if_false, osEnviron, hh] at h
    rcases hcd1 : copy_dir env o (pathJoin home ".spinnaker") "." with ⟨a1, r1⟩
    cases r1 with
    | error e => simp only [hcd1] at h; simp at h
    | ok o2 =>
      simp only [hcd1] at h
      rcases hcd2 : copy_dir env o2 (pathJoin home ".hal") "." with ⟨a2, r2⟩
      simp only [hcd2] at h
      simp only [Prod.mk.injEq] at h
      obtain ⟨hacts, hr⟩ := h
      subst hacts
      cases r2 with
      | error e => exact absurd hr (by simp)
      | ok o3 =>
        rw [countRetry_append,
          countRetry_copy_dir_ok env o _ "." a1 o2 hcd1,
          countRetry_copy_dir_ok env o2 _ "." a2 o3 hcd2]

/-- C3 amended witness: the git-credentials category skips on an empty
filesystem, while the enabled home-Spinnaker category still issues two
copy commands. -/
theorem C3_flag_gated_copies_amended_witness :
    copy_home_file_list testEnv optsPZ "git credentials" "." [".git-credentials"] =
      ([Action.print "Skipping git credentials because there are no files."],
        Except.ok optsPZ) ∧
    countRetry (maybe_copy_home_spinnaker testEnv optsSpin).1 = 2 := by
  have hA := (C3_flag_gated_copies_amended testEnv optsPZ "git credentials" "."
    "/home/dev" [".git-credentials"] rfl).1
  have hB := (C3_flag_gated_copies_amended testEnv optsSpin "unused" "."
    "/home/dev" [] rfl).2.2
  exact ⟨hA rfl, hB rfl _ _ rfl⟩

/-! ### Lemmas about the driver stages -/

theorem except_map_ok {ε α β : Type} (f : α → β) (x : Except ε α) (b : β)
    (h : x.map f = Except.ok b) : ∃ a, x = Except.ok a ∧ f a = b := by
  cases x with
  | error e => simp [Except.map] at h
  | ok a =>
    simp only [Except.map, Except.ok.injEq] at h
    exact ⟨a, rfl, h⟩

theorem liftPy_ok {α : Type} (x : List Action × Except PyErr α) (v : α)
    (h : (liftPy x).2 = Except.ok v) : x.2 = Except.ok v := by
  rcases x with ⟨a, r⟩
  cases r with
  | error e => simp [liftPy, Except.mapError] at h
  | ok w => simpa [liftPy, Except.mapError] using h

theorem countRetry_andThen {α β : Type} (x : List Action × Except Halt α)
    (f : α → List Action × Except Halt β)
    (hx : countRetry x.1 = 0)
    (hf : ∀ v, x.2 = Except.ok v → countRetry (f v).1 = 0) :
    countRetry (andThen x f).1 = 0 := by
  rcases x with ⟨a, r⟩
  cases r with
  | error h => exact hx
  | ok v =>
    have hfv := hf v rfl
    rcases hfv2 : f v with ⟨b, s⟩
    rw [hfv2] at hfv
    have hfv' : countRetry b = 0 := hfv
    have hx' : countRetry a = 0 := hx
    simp only [andThen, hfv2]
    rw [countRetry_append, hx', hfv']

theorem countRetry_check_gcloud (env : Env) : countRetry (check_gcloud env).1 = 0 := by
  unfold check_gcloud
  split
  · rfl
  · rfl

theorem countRetry_check_args (env : Env) (o : Options) :
    countRetry (check_args env o).1 = 0 := by
  unfold check_args
  split
  · rfl
  · rfl

theorem countRetry_maybe_inform (env : Env) (ty tp oe : String) :
    countRetry (maybe_inform env ty tp oe).1 = 0 := by
  cases henv : env.envVars "HOME" with
  | none => simp [maybe_inform, henv, countRetry]
  | some home =>
    cases hfe : env.fileExists (pathJoin home tp) with
    | true => simp [maybe_inform, henv, hfe, countRetry, List.filter_cons, isRetryAction]
    | false => simp [maybe_inform, henv, hfe, countRetry]

theorem countRetry_final_report (env : Env) (o : Options) :
    countRetry (final_report env o).1 = 0 := by
  rcases hgp : get_project env o with ⟨a1, r1⟩
  have ha1 : countRetry a1 = 0 := by
    have hc := countRetry_get_project env o
    rw [hgp] at hc
    exact hc
  cases r1 with
  | error e => simpa [final_report, hgp] using ha1
  | ok pr =>
    obtain ⟨p, o1⟩ := pr
    rcases hgz : get_zone env o1 with ⟨a2, zz⟩
    have ha2 : countRetry a2 = 0 := by
      have hc := countRetry_get_zone env o1
      rw [hgz] at hc
      exact hc
    simp [final_report, hgp, hgz, countRetry_append, countRetry_print_cons, countRetry_nil,
      ha1, ha2]

theorem countRetry_create_instance (env : Env) (o : Options) :
    countRetry (create_instance env o).1 = 0 := by
  rcases hgp : get_project env o with ⟨a1, r1⟩
  have ha1 : countRetry a1 = 0 := by
    have hc := countRetry_get_project env o
    rw [hgp] at hc
    exact hc
  cases r1 with
  | error e => simpa [create_instance, hgp] using ha1
  | ok pr =>
    obtain ⟨p, o1⟩ := pr
    rcases hgz : get_zone env o1 with ⟨a2, zz⟩
    obtain ⟨z1, o2⟩ := zz
    have ha2 : countRetry a2 = 0 := by
      have hc := countRetry_get_zone env o1
      rw [hgz] at hc
      exact hc
    rcases hgp2 : get_project env o2 with ⟨a3, r3⟩
    have ha3 : countRetry a3 = 0 := by
      have hc := countRetry_get_project env o2
      rw [hgp2] at hc
      exact hc
    cases r3 with
    | error e =>
      simp only [create_instance, hgp, hgz, hgp2]
      simp [countRetry_append, ha1, ha2, ha3, countRetry_print_cons, countRetry_write_cons,
        countRetry_nil]
    | ok pr2 =>
      obtain ⟨p2, o3⟩ := pr2
      rcases hgz2 : get_zone env o3 with ⟨a4, zz2⟩
      obtain ⟨z2, o4⟩ := zz2
      have ha4 : countRetry a4 = 0 := by
        have hc := countRetry_get_zone env o3
        rw [hgz2] at hc
        exact hc
      simp only [create_instance, hgp, hgz, hgp2, hgz2]
      simp [countRetry_append, ha1, ha2, ha3, ha4, countRetry_print_cons,
        countRetry_write_cons, countRetry_check_cons, countRetry_nil]

theorem sameFlags_refl (o : Options) : sameFlags o o :=
  ⟨rfl, rfl, rfl, rfl, rfl⟩

theorem sameFlags_trans {o1 o2 o3 : Options} (h1 : sameFlags o1 o2) (h2 : sameFlags o2 o3) :
    sameFlags o1 o3 := by
  obtain ⟨a1, b1, c1, d1, e1⟩ := h1
  obtain ⟨a2, b2, c2, d2, e2⟩ := h2
  exact ⟨a1.trans a2, b1.trans b2, c1.trans c2, d1.trans d2, e1.trans e2⟩

theorem get_project_sameFlags (env : Env) (o : Options) (a : List Action) (p : String)
    (o1 : Options) (h : get_project env o = (a, Except.ok (p, o1))) : sameFlags o1 o := by
  cases hb : pyTruthy o.project with
  | true =>
    have hgp : get_project env o = ([], Except.ok (o.project.getD "", o)) := by
      simp [get_project, hb]
    rw [hgp] at h
    simp only [Prod.mk.injEq, Except.ok.injEq] at h
    obtain ⟨-, -, rfl⟩ := h
    exact sameFlags_refl o
  | false =>
    cases hcs : env.checkSub "gcloud config list" with
    | error e =>
      have hgp : get_project env o =
          ([Action.execCheck "gcloud config list"], Except.error e) := by
        simp [get_project, hb, hcs]
      rw [hgp] at h
      simp at h
    | ok stdout =>
      cases hre : reSearchProject stdout with
      | none =>
        have hgp : get_project env o =
            ([Action.execCheck "gcloud config list"], Except.error PyErr.attributeError) := by
          simp [get_project, hb, hcs, hre]
        rw [hgp] at h
        simp at h
      | some q =>
        have hgp : get_project env o =
            ([Action.execCheck "gcloud config list"],
              Except.ok (q, { o with project := some q })) := by
          simp [get_project, hb, hcs, hre]
        rw [hgp] at h
        simp only [Prod.mk.injEq, Except.ok.injEq] at h
        obtain ⟨-, -, rfl⟩ := h
        exact ⟨rfl, rfl, rfl, rfl, rfl⟩

theorem get_zone_sameFlags (env : Env) (o : Options) :
    sameFlags (get_zone env o).2.2 o := by
  cases hb : pyTruthy o.zone with
  | true =>
    simp only [get_zone, hb, Bool.not_true, Bool.false_eq_true, if_false]
    exact sameFlags_refl o
  | false =>
    cases hmz : env.metadataZone with
    | error e =>
      simp only [get_zone, hb, Bool.not_false, if_true, hmz]
      exact ⟨rfl, rfl, rfl, rfl, rfl⟩
    | ok body =>
      simp only [get_zone, hb, Bool.not_false, if_true, hmz]
      exact ⟨rfl, rfl, rfl, rfl, rfl⟩

theorem create_instance_sameFlags (env : Env) (o : Options) (a : List Action) (o1 : Options)
    (h : create_instance env o = (a, Except.ok o1)) : sameFlags o1 o := by
  rcases hgp : get_project env o with ⟨a1, r1⟩
  cases r1 with
  | error e => simp only [create_instance, hgp] at h; simp at h
  | ok pr =>
    obtain ⟨p, oA⟩ := pr
    have hfA : sameFlags oA o := get_project_sameFlags env o a1 p oA hgp
    rcases hgz : get_zone env oA with ⟨a2, zz⟩
    obtain ⟨z1, oB⟩ := zz
    have hfB : sameFlags oB oA := by
      have hs := get_zone_sameFlags env oA
      rw [hgz] at hs
      exact hs
    rcases hgp2 : get_project env oB with ⟨a3, r3⟩
    cases r3 with
    | error e =>
      simp only [create_instance, hgp, hgz, hgp2] at h
      simp at h
    | ok pr2 =>
      obtain ⟨p2, oC⟩ := pr2
      have hfC : sameFlags oC oB := get_project_sameFlags env oB a3 p2 oC hgp2
      rcases hgz2 : get_zone env oC with ⟨a4, zz2⟩
      obtain ⟨z2, oD⟩ := zz2
      have hfD : sameFlags oD oC := by
        have hs := get_zone_sameFlags env oC
        rw [hgz2] at hs
        exact hs
      simp only [create_instance, hgp, hgz, hgp2, hgz2, Prod.mk.injEq] at h
      obtain ⟨-, h2⟩ := h
      obtain ⟨u, -, hfo⟩ := except_map_ok _ _ _ h2
      rw [← hfo]
      exact sameFlags_trans (sameFlags_trans hfD hfC) (sameFlags_trans hfB hfA)

theorem make_remote_directories_inactive (env : Env) (o : Options)
    (h1 : o.copy_personal_files = false) (h2 : o.copy_home_spinnaker = false)
    (h4 : o.copy_gcloud_config = false) (h5 : o.aws_credentials = none) :
    make_remote_directories env o = ([], Except.ok o) := by
  simp [make_remote_directories, h1, h2, h4, h5, pyTruthy]

theorem maybe_copy_git_credentials_inactive (env : Env) (o : Options)
    (h : o.copy_git_credentials = false) :
    countRetry (maybe_copy_git_credentials env o).1 = 0 ∧
    ∀ v, (maybe_copy_git_credentials env o).2 = Except.ok v → v = o := by
  constructor
  · simp [maybe_copy_git_credentials, h, countRetry_maybe_inform]
  · intro v hv
    simp only [maybe_copy_git_credentials, h, Bool.false_eq_true, if_false] at hv
    obtain ⟨u, -, hfo⟩ := except_map_ok _ _ _ hv
    exact hfo.symm

theorem maybe_copy_gcloud_config_inactive (env : Env) (o : Options)
    (h : o.copy_gcloud_config = false) :
    countRetry (maybe_copy_gcloud_config env o).1 = 0 ∧
    ∀ v, (maybe_copy_gcloud_config env o).2 = Except.ok v → v = o := by
  constructor
  · simp [maybe_copy_gcloud_config, h, countRetry_maybe_inform]
  · intro v hv
    simp only [maybe_copy_gcloud_config, h, Bool.false_eq_true, if_false] at hv
    obtain ⟨u, -, hfo⟩ := except_map_ok _ _ _ hv
    exact hfo.symm

theorem maybe_copy_aws_credentials_inactive (env : Env) (o : Options)
    (h : o.aws_credentials = none) :
    countRetry (maybe_copy_aws_credentials env o).1 = 0 ∧
    ∀ v, (maybe_copy_aws_credentials env o).2 = Except.ok v → v = o := by
  have hb : pyTruthy o.aws_credentials = false := by rw [h]; rfl
  constructor
  · simp [maybe_copy_aws_credentials, hb, countRetry_maybe_inform]
  · intro v hv
    simp only [maybe_copy_aws_credentials, hb, Bool.false_eq_true, if_false] at hv
    obtain ⟨u, -, hfo⟩ := except_map_ok _ _ _ hv
    exact hfo.symm

theorem maybe_copy_home_spinnaker_inactive (env : Env) (o : Options)
    (h : o.copy_home_spinnaker = false) :
    countRetry (maybe_copy_home_spinnaker env o).1 = 0 ∧
    ∀ v, (maybe_copy_home_spinnaker env o).2 = Except.ok v → v = o := by
  constructor
  · simp [maybe_copy_home_spinnaker, h, countRetry_nil]
  · intro v hv
    simp only [maybe_copy_home_spinnaker, h, Bool.not_false, if_true,
      Except.ok.injEq] at hv
    exact hv.symm

/-! ### C9: all copy flags disabled -/

/-- C9: with all copy flags disabled and no AWS credentials path, the
whole run issues no command through the retry wrapper: no scp, no
copy-files, no remote mkdir. -/
theorem C9_no_copy_commands (env : Env) (argv : List String) (o : Options)
    (hp : parse_args env argv = Except.ok o)
    (h1 : o.copy_personal_files = false) (h2 : o.copy_home_spinnaker = false)
    (h3 : o.copy_git_credentials = false) (h4 : o.copy_gcloud_config = false)
    (h5 : o.aws_credentials = none) :
    countRetry (main_program env argv).1 = 0 := by
  unfold main_program
  apply countRetry_andThen _ _ (countRetry_check_gcloud env)
  intro _ _
  apply countRetry_andThen
  · rfl
  · intro v hv
    rw [hp] at hv
    simp only [Except.mapError] at hv
    injection hv with hv
    subst hv
    apply countRetry_andThen _ _ (countRetry_check_args env o)
    intro _ _
    apply countRetry_andThen
    · exact countRetry_create_instance env o
    · intro o1 ho1
      have hci : create_instance env o = ((create_instance env o).1, Except.ok o1) := by
        rw [← liftPy_ok _ _ ho1]
      obtain ⟨f1, f2, f3, f4, f5⟩ := create_instance_sameFlags env o _ o1 hci
      rw [h1] at f1
      rw [h2] at f2
      rw [h3] at f3
      rw [h4] at f4
      rw [h5] at f5
      apply countRetry_andThen
      · rw [show liftPy (make_remote_directories env o1) =
            liftPy ([], Except.ok o1) from by
          rw [make_remote_directories_inactive env o1 f1 f2 f4 f5]]
        rfl
      · intro o2 ho2
        have ho2' := liftPy_ok _ _ ho2
        rw [make_remote_directories_inactive env o1 f1 f2 f4 f5] at ho2'
        injection ho2' with he2
        subst o2
        apply countRetry_andThen
        · simp [f1, liftPy, countRetry]
        · intro o3 ho3
          have ho3' := liftPy_ok _ _ ho3
          simp only [f1, Bool.false_eq_true, if_false, Except.ok.injEq] at ho3'
          subst o3
          obtain ⟨hg1, hg2⟩ := maybe_copy_git_credentials_inactive env o1 f3
          apply countRetry_andThen
          · exact hg1
          · intro o4 ho4
            have he4 := hg2 o4 (liftPy_ok _ _ ho4)
            subst o4
            obtain ⟨hA1, hA2⟩ := maybe_copy_aws_credentials_inactive env o1 f5
            apply countRetry_andThen
            · exact hA1
            · intro o5 ho5
              have he5 := hA2 o5 (liftPy_ok _ _ ho5)
              subst o5
              obtain ⟨hS1, hS2⟩ := maybe_copy_home_spinnaker_inactive env o1 f2
              apply countRetry_andThen
              · exact hS1
              · intro o6 ho6
                have he6 := hS2 o6 (liftPy_ok _ _ ho6)
                subst o6
                obtain ⟨hG1, hG2⟩ := maybe_copy_gcloud_config_inactive env o1 f4
                apply countRetry_andThen
                · exact hG1
                · intro o7 ho7
                  have he7 := hG2 o7 (liftPy_ok _ _ ho7)
                  subst o7
                  exact countRetry_final_report env o1

/-- C9 witness: a run with every copy category off. -/
theorem C9_no_copy_commands_witness :
    countRetry (main_program testEnv ["--no_personal_files"]).1 = 0 :=
  C9_no_copy_commands testEnv ["--no_personal_files"]
    { defaultOptions "dev" with copy_personal_files := false }
    rfl rfl rfl rfl rfl rfl

/-! ### C5: fail fast on a missing credentials path or CLI -/

/-- C5: a non-existent `--aws_credentials` path makes the run write an
error to stderr and stop with `sys.exit(-1)` (process exit code 255)
before any instance creation, remote directory creation or copy; a
missing gcloud CLI stops the same way. -/
theorem C5_missing_aws_credentials_fail_fast (env env2 : Env) (argv argv2 : List String)
    (o : Options) (path : String)
    (hg : (env.runSub "gcloud --version").1 = 0)
    (hp : parse_args env argv = Except.ok o)
    (ha : o.aws_credentials = some path)
    (hne : path ≠ "")
    (hf : env.fileExists path = false)
    (hm : (env2.runSub "gcloud --version").1 ≠ 0) :
    main_program env argv =
      ([Action.execRun "gcloud --version",
        Action.stderr ("ERROR: " ++ path ++ " not found.\n")],
        Except.error (Halt.exited (-1))) ∧
    main_program env2 argv2 =
      ([Action.execRun "gcloud --version",
        Action.stderr ("ERROR: This program requires gcloud. To obtain gcloud:\n" ++
          "       curl https://sdk.cloud.google.com | bash\n")],
        Except.error (Halt.exited (-1))) ∧
    processExitCode (-1) = 255 := by
  refine ⟨?_, ?_, by decide⟩
  · have hiE : path.isEmpty = false := by
      cases he : path.isEmpty with
      | false => rfl
      | true => exact absurd ((String.isEmpty_iff path).mp he) hne
    have hcg : check_gcloud env = ([Action.execRun "gcloud --version"], Except.ok ()) := by
      unfold check_gcloud
      rw [if_pos hg]
    have hca : check_args env o =
        ([Action.stderr ("ERROR: " ++ path ++ " not found.\n")],
          Except.error (Halt.exited (-1))) := by
      simp [check_args, ha, pyTruthy, hiE, hf]
    unfold main_program
    rw [hcg, hp]
    simp [andThen, Except.mapError, hca]
  · have hcg2 : check_gcloud env2 =
        ([Action.execRun "gcloud --version",
          Action.stderr ("ERROR: This program requires gcloud. To obtain gcloud:\n" ++
            "       curl https://sdk.cloud.google.com | bash\n")],
          Except.error (Halt.exited (-1))) := by
      unfold check_gcloud
      rw [if_neg hm]
    unfold main_program
    rw [hcg2]
    simp [andThen]

/-- C5 witness: the path `/nope` does not exist; gcloud missing in the
second world. -/
theorem C5_missing_aws_credentials_fail_fast_witness :
    main_program testEnv ["--aws_credentials", "/nope"] =
      ([Action.execRun "gcloud --version", Action.stderr "ERROR: /nope not found.\n"],
        Except.error (Halt.exited (-1))) ∧
    main_program envNoGcloud [] =
      ([Action.execRun "gcloud --version",
        Action.stderr ("ERROR: This program requires gcloud. To obtain gcloud:\n" ++
          "       curl https://sdk.cloud.google.com | bash\n")],
        Except.error (Halt.exited (-1))) ∧
    processExitCode (-1) = 255 :=
  C5_missing_aws_credentials_fail_fast testEnv envNoGcloud
    ["--aws_credentials", "/nope"] []
    { defaultOptions "dev" with aws_credentials := some "/nope" } "/nope"
    rfl rfl rfl (by decide) rfl (by decide)

end Spinnaker
